import Mathlib

/-!
Shallow embedding of the core of lucas-de-lima/go-auth-system:
the JWT service (internal/auth/jwt.go), the error taxonomy (pkg/errors),
the user service (internal/service, the version embedded in
src/internal/controller/user/admin_controller.go, which owns the
refresh-token blacklist), and the Gin authentication/role middleware
(internal/middleware/auth.go). Machine time is modelled as an integer
count of seconds (Unix epoch); JWT wire strings are abstracted into
token values carrying their payload and the key they were signed with,
with an abstract decode function standing for compact-serialization
parsing where a wire string is consumed.
-/

namespace GoAuth

/-- Domain user record (internal/domain/user.go, struct User). -/
structure User where
  id : String
  email : String
  password : String
  name : String
  roles : List String
  createdAt : Int
  updatedAt : Int
  deriving Repr, DecidableEq

/-- Access-token claims (internal/auth, struct TokenClaims: UserID, Email and
the embedded jwt.RegisteredClaims, of which GenerateToken populates
ExpiresAt, IssuedAt, NotBefore, Subject). Absent registered claims are `none`,
mirroring the nil `NumericDate` pointers the Go JWT library skips during
validation. The `roles` field is modelled from the spec: the current
`internal/auth/jwt.go` carrying a `Roles` claim is not under src (only a stale
snapshot of the file is, while `jwt_test.go` asserts `claims.Roles` equals
`user.Roles` and the middleware reads `claims.Roles`); per the spec,
AccessClaims carry a denormalized snapshot of the roles taken at
issuance time. -/
structure TokenClaims where
  userID : String
  email : String
  roles : List String
  exp : Option Int
  iat : Option Int
  nbf : Option Int
  sub : String
  deriving Repr, DecidableEq

/-- Registered claims as parsed for refresh tokens
(jwt.RegisteredClaims: GenerateRefreshToken populates only ExpiresAt and
Subject, leaving IssuedAt and NotBefore nil). -/
structure RegisteredClaims where
  exp : Option Int
  iat : Option Int
  nbf : Option Int
  sub : String
  deriving Repr, DecidableEq

/-- Payload of a signed token: either an access-token payload or a
refresh-token payload. -/
inductive TokenPayload where
  | access : TokenClaims → TokenPayload
  | refresh : RegisteredClaims → TokenPayload
  deriving Repr, DecidableEq

/-- A signed compact-serialized token, abstracted to its payload and the
HMAC key it was signed with; two tokens are equal exactly when their wire
strings are (HS256 compact serialization is deterministic in payload and
key). -/
structure Token where
  payload : TokenPayload
  key : String
  deriving Repr, DecidableEq

/-- JWTService (internal/auth/jwt.go): the two secrets and the two
expiration times in hours. -/
structure JWTService where
  secretKey : String
  expirationTime : Int
  refreshKey : String
  refreshExpTime : Int
  deriving Repr, DecidableEq

/-- NewJWTService (internal/auth/jwt.go). -/
def NewJWTService (secretKey : String) (expirationHours : Int)
    (refreshKey : String) (refreshExpHours : Int) : JWTService :=
  { secretKey := secretKey
    expirationTime := expirationHours
    refreshKey := refreshKey
    refreshExpTime := refreshExpHours }

/-- GenerateToken (internal/auth/jwt.go): claims with UserID, Email, roles
snapshot, ExpiresAt = now + expirationTime hours, IssuedAt = NotBefore = now,
Subject = user ID, signed with the access secret. The signing step itself is
modelled separately (`generateTokenE`). -/
def JWTService.generateToken (s : JWTService) (user : User) (now : Int) : Token :=
  { payload := TokenPayload.access
      { userID := user.id
        email := user.email
        roles := user.roles
        exp := some (now + 3600 * s.expirationTime)
        iat := some now
        nbf := some now
        sub := user.id }
    key := s.secretKey }

/-- GenerateRefreshToken (internal/auth/jwt.go): registered claims with only
ExpiresAt = now + refreshExpTime hours and Subject = userID, signed with the
refresh secret. -/
def JWTService.generateRefreshToken (s : JWTService) (userID : String) (now : Int) : Token :=
  { payload := TokenPayload.refresh
      { exp := some (now + 3600 * s.refreshExpTime)
        iat := none
        nbf := none
        sub := userID }
    key := s.refreshKey }

/-- Parsing any payload JSON into a TokenClaims target (as
jwt.ParseWithClaims with a TokenClaims destination does): fields absent from
the JSON are left at their zero value. -/
def TokenPayload.asTokenClaims : TokenPayload → TokenClaims
  | TokenPayload.access c => c
  | TokenPayload.refresh r =>
      { userID := "", email := "", roles := [],
        exp := r.exp, iat := r.iat, nbf := r.nbf, sub := r.sub }

/-- Parsing any payload JSON into a RegisteredClaims target (as
jwt.ParseWithClaims with a RegisteredClaims destination does). -/
def TokenPayload.asRegisteredClaims : TokenPayload → RegisteredClaims
  | TokenPayload.access c => { exp := c.exp, iat := c.iat, nbf := c.nbf, sub := c.sub }
  | TokenPayload.refresh r => r

/-- Default time-based claim validation of the Go JWT library (v5, zero
leeway, claims not required): expired when now is after ExpiresAt, used
before issued when now is before IssuedAt, not yet valid when now is before
NotBefore; absent claims are skipped. -/
def validTimeClaims (exp iat nbf : Option Int) (now : Int) : Bool :=
  (match exp with | none => true | some e => decide (now ≤ e)) &&
  (match iat with | none => true | some i => decide (i ≤ now)) &&
  (match nbf with | none => true | some n => decide (n ≤ now))

/-- ValidateToken (internal/auth/jwt.go): parse with the access secret as
key; the signature verifies exactly when the token was signed with that same
secret; then the library's time-claim validation runs; on success the parsed
TokenClaims are returned. -/
def JWTService.validateToken (s : JWTService) (tok : Token) (now : Int) : Option TokenClaims :=
  if tok.key = s.secretKey then
    let c := tok.payload.asTokenClaims
    if validTimeClaims c.exp c.iat c.nbf now then some c else none
  else none

/-- ValidateRefreshToken (internal/auth/jwt.go): same discipline against the
refresh secret, parsing into RegisteredClaims. -/
def JWTService.validateRefreshToken (s : JWTService) (tok : Token) (now : Int) :
    Option RegisteredClaims :=
  if tok.key = s.refreshKey then
    let c := tok.payload.asRegisteredClaims
    if validTimeClaims c.exp c.iat c.nbf now then some c else none
  else none

/-- AppError (pkg/errors): HTTP status code, public message, and the wrapped
internal error (abstracted to its message text). -/
structure AppError where
  code : Nat
  message : String
  internal : Option String
  deriving Repr, DecidableEq

/-- AppError.WithError (pkg/errors): copy with an internal error attached. -/
def AppError.withError (e : AppError) (err : String) : AppError :=
  { code := e.code, message := e.message, internal := some err }

/-- AppError.WithMessage (pkg/errors): copy with a custom message, keeping
the internal error. -/
def AppError.withMessage (e : AppError) (m : String) : AppError :=
  { code := e.code, message := m, internal := e.internal }

/-- ErrInternalServer (pkg/errors). -/
def ErrInternalServer : AppError := { code := 500, message := "Erro interno do servidor", internal := none }

/-- ErrBadRequest (pkg/errors). -/
def ErrBadRequest : AppError := { code := 400, message := "Requisição inválida", internal := none }

/-- ErrUnauthorized (pkg/errors). -/
def ErrUnauthorized : AppError := { code := 401, message := "Não autorizado", internal := none }

/-- ErrForbidden (pkg/errors). -/
def ErrForbidden : AppError := { code := 403, message := "Acesso negado", internal := none }

/-- ErrUserNotFound (pkg/errors). -/
def ErrUserNotFound : AppError := { code := 404, message := "Usuário não encontrado", internal := none }

/-- ErrEmailAlreadyExists (pkg/errors). -/
def ErrEmailAlreadyExists : AppError := { code := 409, message := "Email já está em uso", internal := none }

/-- ErrInvalidCredentials (pkg/errors). -/
def ErrInvalidCredentials : AppError := { code := 401, message := "Credenciais inválidas", internal := none }

/-- ErrInvalidToken (pkg/errors). -/
def ErrInvalidToken : AppError := { code := 401, message := "Token inválido ou expirado", internal := none }

/-- ErrMissingToken (pkg/errors). -/
def ErrMissingToken : AppError := { code := 401, message := "Token de autenticação não fornecido", internal := none }

/-- Identity store interface (domain.UserRepository): each call either fails
with a library error (abstracted to its message) or returns its value;
absence of a record is signaled by a nil result, i.e. `Except.ok none`,
never by the error case (internal/repository/user_repository.go returns
`nil, nil` on ErrNotFound). -/
structure UserRepository where
  getByID : String → Except String (Option User)
  getByEmail : String → Except String (Option User)
  createUser : User → Except String Unit
  updateUser : User → Except String Unit
  deleteUser : String → Except String Unit

/-- Password hashing primitive (bcrypt), abstracted per the spec to an
opaque one-way hash and compare: `hash` may fail with a library error;
`compare hashed plain` is true exactly when CompareHashAndPassword returns
nil. -/
structure CryptoEnv where
  hash : String → Except String String
  compare : String → String → Bool

/-- Abstract signing faults of the JWT library: `SignedString` in
GenerateToken (resp. GenerateRefreshToken) returns an error exactly when the
corresponding field is `some`; HMAC signing has no other failure mode. -/
structure SignEnv where
  accessSignError : Option String
  refreshSignError : Option String
  deriving Repr, DecidableEq

/-- The environment in which no signing-library fault occurs (the normal
run). -/
def noFault : SignEnv := { accessSignError := none, refreshSignError := none }

/-- GenerateToken including its fallible signing step: `token.SignedString`
either fails with the library error or produces the signed token. -/
def JWTService.generateTokenE (s : JWTService) (env : SignEnv) (user : User) (now : Int) :
    Except String Token :=
  match env.accessSignError with
  | some e => Except.error e
  | none => Except.ok (s.generateToken user now)

/-- GenerateRefreshToken including its fallible signing step. -/
def JWTService.generateRefreshTokenE (s : JWTService) (env : SignEnv) (userID : String) (now : Int) :
    Except String Token :=
  match env.refreshSignError with
  | some e => Except.error e
  | none => Except.ok (s.generateRefreshToken userID now)

/-- UserService (internal/service, version in admin_controller.go): the
repository and the JWT service. -/
structure UserService where
  repo : UserRepository
  jwt : JWTService

/-- UserService.Create: check email uniqueness via GetByEmail (library error
wrapped to ErrInternalServer; existing record to ErrEmailAlreadyExists),
bcrypt-hash the password (failure wrapped to ErrInternalServer), stamp
timestamps, persist (failure wrapped to ErrInternalServer). The stored
record is returned to make the in-place mutation of the Go pointer
observable. -/
def UserService.create (us : UserService) (env : CryptoEnv) (user : User) (now : Int) :
    Except AppError User :=
  match us.repo.getByEmail user.email with
  | Except.error e => Except.error (ErrInternalServer.withError e)
  | Except.ok (some _) => Except.error ErrEmailAlreadyExists
  | Except.ok none =>
    match env.hash user.password with
    | Except.error e => Except.error (ErrInternalServer.withError e)
    | Except.ok hashed =>
      let stored := { user with password := hashed, createdAt := now, updatedAt := now }
      match us.repo.createUser stored with
      | Except.error e => Except.error (ErrInternalServer.withError e)
      | Except.ok _ => Except.ok stored

/-- UserService.GetByID: library error to ErrInternalServer, absence to
ErrUserNotFound. -/
def UserService.getByID (us : UserService) (id : String) : Except AppError User :=
  match us.repo.getByID id with
  | Except.error e => Except.error (ErrInternalServer.withError e)
  | Except.ok none => Except.error ErrUserNotFound
  | Except.ok (some user) => Except.ok user

/-- UserService.GetByEmail: library error to ErrInternalServer, absence to
ErrUserNotFound. -/
def UserService.getByEmail (us : UserService) (email : String) : Except AppError User :=
  match us.repo.getByEmail email with
  | Except.error e => Except.error (ErrInternalServer.withError e)
  | Except.ok none => Except.error ErrUserNotFound
  | Except.ok (some user) => Except.ok user

/-- UserService.Update: existence check via GetByID (library error to
ErrInternalServer, absence to ErrUserNotFound), then the write (library
error to ErrInternalServer). -/
def UserService.update (us : UserService) (user : User) (now : Int) : Except AppError User :=
  match us.repo.getByID user.id with
  | Except.error e => Except.error (ErrInternalServer.withError e)
  | Except.ok none => Except.error ErrUserNotFound
  | Except.ok (some _) =>
    let updated := { user with updatedAt := now }
    match us.repo.updateUser updated with
    | Except.error e => Except.error (ErrInternalServer.withError e)
    | Except.ok _ => Except.ok updated

/-- UserService.Delete: existence check via GetByID (library error to
ErrInternalServer, absence to ErrUserNotFound), then the delete (library
error to ErrInternalServer). -/
def UserService.delete (us : UserService) (id : String) : Except AppError Unit :=
  match us.repo.getByID id with
  | Except.error e => Except.error (ErrInternalServer.withError e)
  | Except.ok none => Except.error ErrUserNotFound
  | Except.ok (some _) =>
    match us.repo.deleteUser id with
    | Except.error e => Except.error (ErrInternalServer.withError e)
    | Except.ok _ => Except.ok ()

/-- UserService.Authenticate: lookup by email (library error to
ErrInternalServer, absence to ErrInvalidCredentials), bcrypt compare
(mismatch to ErrInvalidCredentials), then issue the access and refresh pair
(signing failures to ErrInternalServer). -/
def UserService.authenticate (us : UserService) (env : CryptoEnv) (senv : SignEnv)
    (email password : String) (now : Int) : Except AppError (Token × Token) :=
  match us.repo.getByEmail email with
  | Except.error e => Except.error (ErrInternalServer.withError e)
  | Except.ok none => Except.error ErrInvalidCredentials
  | Except.ok (some user) =>
    if env.compare user.password password then
      match us.jwt.generateTokenE senv user now with
      | Except.error e => Except.error (ErrInternalServer.withError e)
      | Except.ok accessToken =>
        match us.jwt.generateRefreshTokenE senv user.id now with
        | Except.error e => Except.error (ErrInternalServer.withError e)
        | Except.ok refreshToken => Except.ok (accessToken, refreshToken)
    else Except.error ErrInvalidCredentials

/-- The body of RefreshTokens after the blacklist membership check, taking
the blacklist as it stands when the final write executes (the code does not
read the blacklist again between its check and its write): validate the
refresh token (failure to ErrUnauthorized), load the user by the claims
subject (library error or absence both to ErrUserNotFound), generate the
new pair (signing failures to ErrInternalServer), and only then add the
presented token to the blacklist. -/
def UserService.refreshRest (us : UserService) (senv : SignEnv) (refreshToken : Token)
    (now : Int) (blAtWrite : List Token) : Except AppError (Token × Token) × List Token :=
  match us.jwt.validateRefreshToken refreshToken now with
  | none => (Except.error (ErrUnauthorized.withError "refresh token inválido"), blAtWrite)
  | some claims =>
    match us.repo.getByID claims.sub with
    | Except.error _ => (Except.error ErrUserNotFound, blAtWrite)
    | Except.ok none => (Except.error ErrUserNotFound, blAtWrite)
    | Except.ok (some user) =>
      match us.jwt.generateTokenE senv user now with
      | Except.error e => (Except.error (ErrInternalServer.withError e), blAtWrite)
      | Except.ok accessToken =>
        match us.jwt.generateRefreshTokenE senv user.id now with
        | Except.error e => (Except.error (ErrInternalServer.withError e), blAtWrite)
        | Except.ok newRefreshToken =>
          (Except.ok (accessToken, newRefreshToken), List.insert refreshToken blAtWrite)

/-- RefreshTokens (admin_controller.go service): first the blacklist
membership check — rejecting with ErrUnauthorized and the message
"Refresh token inválido ou já utilizado" without touching the JWT service or
the store — then the rest of the body. The sequential run passes the same
blacklist to the check and to the write. -/
def UserService.refreshTokens (us : UserService) (senv : SignEnv) (bl : List Token)
    (refreshToken : Token) (now : Int) : Except AppError (Token × Token) × List Token :=
  if refreshToken ∈ bl then
    (Except.error (ErrUnauthorized.withMessage "Refresh token inválido ou já utilizado"), bl)
  else
    us.refreshRest senv refreshToken now bl

/-- BlacklistRefreshToken (logout path): idempotent insert into the
blacklist map. -/
def blacklistRefreshToken (tok : Token) (bl : List Token) : List Token :=
  List.insert tok bl

/-- Request-scoped context values set by the authentication gate
(c.Set of user_id, user_email, roles). -/
structure AuthContext where
  userID : Option String
  userEmail : Option String
  roles : Option (List String)
  deriving Repr, DecidableEq

/-- Outcome of a middleware gate: reject aborts with an error (the
downstream handler never runs), proceed continues with a value. -/
inductive GateResult (α : Type) where
  | reject : AppError → GateResult α
  | proceed : α → GateResult α
  deriving Repr, DecidableEq

/-- Splitting a character list at every occurrence of a separator, keeping
empty fields (the semantics of the Go strings.Split for a one-character
separator: n separators yield n + 1 fields, the empty input yields one empty
field). -/
def splitChars (sep : Char) : List Char → List (List Char)
  | [] => [[]]
  | c :: cs =>
    match splitChars sep cs, decide (c = sep) with
    | rest, true => [] :: rest
    | [], false => [[c]]
    | r :: rs, false => (c :: r) :: rs

/-- strings.Split(s, " ") as used by the middleware on the Authorization
header. -/
def splitOnSpace (s : String) : List String :=
  (splitChars ' ' s.data).map (fun cs => String.mk cs)

/-- GinAuthenticate (internal/middleware/auth.go): empty Authorization
header rejects with ErrMissingToken; a header that does not split on spaces
into exactly two parts with the first part literally "Bearer" rejects with
ErrBadRequest and the message "Formato de autorização inválido"; otherwise
the second part is decoded and validated (failure rejects with
ErrInvalidToken) and the claims are attached to the request context.
`decode` abstracts parsing a wire string into a signed token value, `none`
standing for a structurally malformed string. -/
def ginAuthenticate (s : JWTService) (decode : String → Option Token)
    (authHeader : String) (now : Int) : GateResult AuthContext :=
  if authHeader = "" then
    GateResult.reject ErrMissingToken
  else
    match splitOnSpace authHeader with
    | [p0, p1] =>
      if p0 = "Bearer" then
        match (decode p1).bind (fun t => s.validateToken t now) with
        | none => GateResult.reject (ErrInvalidToken.withError "token inválido")
        | some claims =>
            GateResult.proceed
              { userID := some claims.userID
                userEmail := some claims.email
                roles := some claims.roles }
      else GateResult.reject (ErrBadRequest.withMessage "Formato de autorização inválido")
    | _ => GateResult.reject (ErrBadRequest.withMessage "Formato de autorização inválido")

/-- containsRole (internal/middleware/auth.go): exact string membership. -/
def containsRole (roles : List String) (role : String) : Bool :=
  roles.any (fun r => r = role)

/-- GinRequireRole (internal/middleware/auth.go): rejects with ErrForbidden
and the message "Acesso negado: permissão insuficiente" unless the context
carries a user id, carries roles, and the required role is a member;
otherwise the request continues. -/
def ginRequireRole (role : String) (ctx : AuthContext) : GateResult Unit :=
  let roles := ctx.roles.getD []
  if !ctx.userID.isSome || !ctx.roles.isSome || !containsRole roles role then
    GateResult.reject (ErrForbidden.withMessage "Acesso negado: permissão insuficiente")
  else
    GateResult.proceed ()

/-- Plain success test on an `Except` result. -/
def exceptIsOk : Except ε α → Bool
  | Except.ok _ => true
  | Except.error _ => false

/-- One mutation of the process-wide refresh-token blacklist reachable from
production request paths: a RefreshTokens call (with any service, signing
environment, token and time) or a logout (BlacklistRefreshToken).
ClearRefreshTokenBlacklist, the test-only reset, is deliberately absent. -/
inductive BlacklistStep : List Token → List Token → Prop where
  | refresh (us : UserService) (senv : SignEnv) (tok : Token) (now : Int) (bl : List Token) :
      BlacklistStep bl (us.refreshTokens senv bl tok now).2
  | logout (tok : Token) (bl : List Token) :
      BlacklistStep bl (blacklistRefreshToken tok bl)

/-- Reflexive-transitive closure of blacklist mutations. -/
inductive ReachableBl : List Token → List Token → Prop where
  | refl (bl : List Token) : ReachableBl bl bl
  | step {bl bl' bl'' : List Token} :
      ReachableBl bl bl' → BlacklistStep bl' bl'' → ReachableBl bl bl''

/-- The rest of a RefreshTokens body never removes a token from the
blacklist. -/
theorem mem_refreshRest_blacklist (us : UserService) (senv : SignEnv) (tok : Token)
    (now : Int) (bl : List Token) {t : Token} (ht : t ∈ bl) :
    t ∈ (us.refreshRest senv tok now bl).2 := by
  unfold UserService.refreshRest
  cases hv : us.jwt.validateRefreshToken tok now with
  | none => simp [hv, ht]
  | some claims =>
    cases hr : us.repo.getByID claims.sub with
    | error e => simp [hv, hr, ht]
    | ok o =>
      cases o with
      | none => simp [hv, hr, ht]
      | some user =>
        cases hg : us.jwt.generateTokenE senv user now with
        | error e => simp [hv, hr, hg, ht]
        | ok a =>
          cases hg2 : us.jwt.generateRefreshTokenE senv user.id now with
          | error e => simp [hv, hr, hg, hg2, ht]
          | ok r => simp [hv, hr, hg, hg2, List.mem_insert_iff, ht]

/-- RefreshTokens never removes a token from the blacklist. -/
theorem mem_refreshTokens_blacklist (us : UserService) (senv : SignEnv) (tok : Token)
    (now : Int) (bl : List Token) {t : Token} (ht : t ∈ bl) :
    t ∈ (us.refreshTokens senv bl tok now).2 := by
  unfold UserService.refreshTokens
  by_cases hmem : tok ∈ bl
  · rw [if_pos hmem]
    exact ht
  · rw [if_neg hmem]
    exact mem_refreshRest_blacklist us senv tok now bl ht

/-- No blacklist mutation removes a token. -/
theorem mem_of_blacklistStep {bl bl' : List Token} {t : Token}
    (h : BlacklistStep bl bl') (ht : t ∈ bl) : t ∈ bl' := by
  cases h with
  | refresh us senv tok now bl => exact mem_refreshTokens_blacklist us senv tok now bl ht
  | logout tok bl => simp [blacklistRefreshToken, List.mem_insert_iff, ht]

/-- Blacklist membership is stable along every reachable sequence of
production-path mutations. -/
theorem mem_of_reachableBl {bl bl' : List Token} {t : Token}
    (h : ReachableBl bl bl') (ht : t ∈ bl) : t ∈ bl' := by
  induction h with
  | refl => exact ht
  | step _ hstep ih => exact mem_of_blacklistStep hstep ih

/-- containsRole decides exact string membership. -/
theorem containsRole_eq_true_iff (roles : List String) (role : String) :
    containsRole roles role = true ↔ role ∈ roles := by
  simp [containsRole, List.any_eq_true]

/-- Concrete user record for witnesses. -/
def aliceUser : User :=
  { id := "1", email := "alice@example.com", password := "hashedpw",
    name := "Alice", roles := ["user"], createdAt := 0, updatedAt := 0 }

/-- Concrete JWT service for witnesses: distinct access and refresh
secrets, 1-hour access TTL, 24-hour refresh TTL. -/
def demoJWT : JWTService := NewJWTService "secret" 1 "refresh" 24

/-- Concrete in-memory store holding exactly aliceUser. -/
def demoRepo : UserRepository :=
  { getByID := fun id => if id = "1" then Except.ok (some aliceUser) else Except.ok none
    getByEmail := fun e => if e = "alice@example.com" then Except.ok (some aliceUser) else Except.ok none
    createUser := fun _ => Except.ok ()
    updateUser := fun _ => Except.ok ()
    deleteUser := fun _ => Except.ok () }

/-- Concrete user service for witnesses. -/
def demoService : UserService := { repo := demoRepo, jwt := demoJWT }

/-- Store whose every call fails with a library error. -/
def errRepo : UserRepository :=
  { getByID := fun _ => Except.error "db down"
    getByEmail := fun _ => Except.error "db down"
    createUser := fun _ => Except.error "db down"
    updateUser := fun _ => Except.error "db down"
    deleteUser := fun _ => Except.error "db down" }

/-- User service over the failing store. -/
def errService : UserService := { repo := errRepo, jwt := demoJWT }

/-- Concrete refresh token issued at time 0 for aliceUser. -/
def demoRefreshTok : Token := demoJWT.generateRefreshToken "1" 0

/-- Concrete bcrypt environment for witnesses: compare succeeds exactly when
the stored hash is the fixed hash of the presented password. -/
def demoCrypto : CryptoEnv :=
  { hash := fun pw => Except.ok ("hash:" ++ pw)
    compare := fun hashed plain => hashed = "hash:" ++ plain }

/-- C3: access-token round-trip — for every user record, validating the
token produced by GenerateToken with the same JWTService, at a validation
time not before issuance and strictly before the token expiry, succeeds and
returns claims whose user id, email and roles are identical to those of the
user the token was issued for (the roles being the snapshot taken at
issuance time). -/
theorem accessToken_roundTrip (s : JWTService) (user : User) (iss vt : Int)
    (hord : iss ≤ vt) (hexp : vt < iss + 3600 * s.expirationTime) :
    s.validateToken (s.generateToken user iss) vt
      = some { userID := user.id, email := user.email, roles := user.roles,
               exp := some (iss + 3600 * s.expirationTime),
               iat := some iss, nbf := some iss, sub := user.id } := by
  simp [JWTService.validateToken, JWTService.generateToken, TokenPayload.asTokenClaims,
        validTimeClaims, hord, le_of_lt hexp]

/-- C3 witness: the round-trip at a concrete service, user and times. -/
theorem accessToken_roundTrip_witness :
    demoJWT.validateToken (demoJWT.generateToken aliceUser 0) 10
      = some { userID := "1", email := "alice@example.com", roles := ["user"],
               exp := some 3600, iat := some 0, nbf := some 0, sub := "1" } := by
  have h := accessToken_roundTrip demoJWT aliceUser 0 10 (by decide) (by decide)
  simpa [demoJWT, NewJWTService, aliceUser] using h

/-- C4: credential secrecy — Authenticate with an email matching no user and
Authenticate with an existing user's email but a password whose hash
comparison fails return the identical error value: the same
ErrInvalidCredentials kind with the same public message, so the two runs are
indistinguishable to the caller. -/
theorem authenticate_credential_secrecy
    (us : UserService) (env : CryptoEnv) (senv : SignEnv)
    (emailU pwU emailK pwK : String) (now1 now2 : Int) (u : User)
    (hmiss : us.repo.getByEmail emailU = Except.ok none)
    (hhit : us.repo.getByEmail emailK = Except.ok (some u))
    (hcmp : env.compare u.password pwK = false) :
    us.authenticate env senv emailU pwU now1 = Except.error ErrInvalidCredentials
    ∧ us.authenticate env senv emailK pwK now2 = Except.error ErrInvalidCredentials := by
  constructor
  · simp only [UserService.authenticate, hmiss]
  · simp only [UserService.authenticate, hhit, hcmp, if_false, Bool.false_eq_true, if_neg]

/-- C4 witness: an unknown email and a wrong password at the concrete
service produce the identical ErrInvalidCredentials error. -/
theorem authenticate_credential_secrecy_witness :
    demoService.authenticate demoCrypto noFault "bob@example.com" "pw" 5
        = Except.error ErrInvalidCredentials
    ∧ demoService.authenticate demoCrypto noFault "alice@example.com" "wrong" 5
        = Except.error ErrInvalidCredentials :=
  authenticate_credential_secrecy demoService demoCrypto noFault "bob@example.com" "pw"
    "alice@example.com" "wrong" 5 5 aliceUser rfl rfl rfl

/-- C10: token-kind separation — when the access secret differs from the
refresh secret, ValidateRefreshToken rejects every token produced by
GenerateToken, and ValidateToken rejects every token produced by
GenerateRefreshToken, at all issuance and validation times, because each
validator checks the signature against its own secret. -/
theorem token_kind_separation (s : JWTService) (user : User) (uid : String)
    (iss1 iss2 vt1 vt2 : Int) (hne : s.secretKey ≠ s.refreshKey) :
    s.validateRefreshToken (s.generateToken user iss1) vt1 = none
    ∧ s.validateToken (s.generateRefreshToken uid iss2) vt2 = none := by
  constructor
  · simp [JWTService.validateRefreshToken, JWTService.generateToken, hne]
  · simp [JWTService.validateToken, JWTService.generateRefreshToken, Ne.symm hne]

/-- C10 witness: separation at the concrete service with distinct
secrets. -/
theorem token_kind_separation_witness :
    demoJWT.validateRefreshToken (demoJWT.generateToken aliceUser 0) 10 = none
    ∧ demoJWT.validateToken (demoJWT.generateRefreshToken "1" 0) 10 = none :=
  token_kind_separation demoJWT aliceUser "1" 0 0 10 10 (by decide)

/-- After-check body of RefreshTokens: an error outcome leaves the blacklist
as it was, a success outcome inserts the presented token. -/
theorem refreshRest_snd (us : UserService) (senv : SignEnv) (T : Token) (now : Int)
    (bl : List Token) :
    (∀ e, (us.refreshRest senv T now bl).1 = Except.error e →
        (us.refreshRest senv T now bl).2 = bl)
    ∧ (∀ p, (us.refreshRest senv T now bl).1 = Except.ok p →
        (us.refreshRest senv T now bl).2 = List.insert T bl) := by
  unfold UserService.refreshRest
  cases hv : us.jwt.validateRefreshToken T now with
  | none =>
    simp only [hv]
    exact ⟨fun e h => by simp_all, fun p h => by simp_all⟩
  | some claims =>
    simp only [hv]
    cases hr : us.repo.getByID claims.sub with
    | error e0 =>
      simp only [hr]
      exact ⟨fun e h => by simp_all, fun p h => by simp_all⟩
    | ok o =>
      try simp only [hr]
      cases o with
      | none => exact ⟨fun e h => by simp_all, fun p h => by simp_all⟩
      | some user =>
        cases hg : us.jwt.generateTokenE senv user now with
        | error e0 =>
          simp only [hg]
          exact ⟨fun e h => by simp_all, fun p h => by simp_all⟩
        | ok a =>
          simp only [hg]
          cases hg2 : us.jwt.generateRefreshTokenE senv user.id now with
          | error e0 =>
            simp only [hg2]
            exact ⟨fun e h => by simp_all, fun p h => by simp_all⟩
          | ok r =>
            simp only [hg2]
            exact ⟨fun e h => by simp_all, fun p h => by simp_all⟩

/-- C9: rotation failure atomicity — whenever RefreshTokens returns an error
(at the consumed check, at validation, at the user lookup, or while
generating either new token) the consumed set is unchanged; the presented
token is added to the set only on the success path. -/
theorem refreshTokens_failure_atomicity
    (us : UserService) (senv : SignEnv) (bl : List Token) (T : Token) (now : Int) :
    (∀ e, (us.refreshTokens senv bl T now).1 = Except.error e →
        (us.refreshTokens senv bl T now).2 = bl)
    ∧ (∀ p, (us.refreshTokens senv bl T now).1 = Except.ok p →
        (us.refreshTokens senv bl T now).2 = List.insert T bl) := by
  unfold UserService.refreshTokens
  by_cases hmem : T ∈ bl
  · rw [if_pos hmem]
    exact ⟨fun e h => by simp_all, fun p h => by simp_all⟩
  · rw [if_neg hmem]
    exact refreshRest_snd us senv T now bl

/-- C9 witness: at concrete inputs, a failing run (store error) leaves the
blacklist empty and a succeeding run inserts the presented token. -/
theorem refreshTokens_failure_atomicity_witness :
    (errService.refreshTokens noFault [] demoRefreshTok 10).2 = []
    ∧ (demoService.refreshTokens noFault [] demoRefreshTok 10).2
        = List.insert demoRefreshTok [] :=
  ⟨(refreshTokens_failure_atomicity errService noFault [] demoRefreshTok 10).1
      ErrUserNotFound rfl,
   (refreshTokens_failure_atomicity demoService noFault [] demoRefreshTok 10).2
      (demoJWT.generateToken aliceUser 10, demoJWT.generateRefreshToken "1" 10) rfl⟩

/-- C2: refresh-rotation protocol order — the consumed check is performed
first and its rejection is the same for every JWT service and every store
(no signature validation, no store lookup); otherwise a failed
signature/expiry validation yields the Unauthorized kind; otherwise an
absent Identity for the subject of the validated claims yields UserNotFound;
otherwise a fresh access token and a fresh refresh token are derived from
the current Identity record, the presented token is marked consumed, and the
new pair is returned. -/
theorem refreshTokens_protocol_order
    (us : UserService) (senv : SignEnv) (bl : List Token) (T : Token) (now : Int) :
    (T ∈ bl → ∀ us' : UserService, ∀ senv' : SignEnv,
        us'.refreshTokens senv' bl T now
          = (Except.error (ErrUnauthorized.withMessage "Refresh token inválido ou já utilizado"),
             bl))
    ∧ (T ∉ bl → us.jwt.validateRefreshToken T now = none →
        us.refreshTokens senv bl T now
          = (Except.error (ErrUnauthorized.withError "refresh token inválido"), bl))
    ∧ (T ∉ bl → ∀ claims, us.jwt.validateRefreshToken T now = some claims →
        us.repo.getByID claims.sub = Except.ok none →
        us.refreshTokens senv bl T now = (Except.error ErrUserNotFound, bl))
    ∧ (T ∉ bl → ∀ claims user, us.jwt.validateRefreshToken T now = some claims →
        us.repo.getByID claims.sub = Except.ok (some user) →
        us.refreshTokens noFault bl T now
          = (Except.ok (us.jwt.generateToken user now, us.jwt.generateRefreshToken user.id now),
             List.insert T bl)) := by
  refine ⟨?_, ?_, ?_, ?_⟩
  · intro hmem us' senv'
    unfold UserService.refreshTokens
    rw [if_pos hmem]
  · intro hmem hv
    simp only [UserService.refreshTokens, UserService.refreshRest, if_neg hmem, hv]
  · intro hmem claims hv hr
    simp only [UserService.refreshTokens, UserService.refreshRest, if_neg hmem, hv, hr]
  · intro hmem claims user hv hr
    simp only [UserService.refreshTokens, UserService.refreshRest, if_neg hmem, hv, hr,
               JWTService.generateTokenE, JWTService.generateRefreshTokenE, noFault]

/-- C2 witness: the four protocol branches at concrete inputs — a
blacklisted token, an invalid token (wrong key), an unknown subject, and the
full success path. -/
theorem refreshTokens_protocol_order_witness :
    demoService.refreshTokens noFault [demoRefreshTok] demoRefreshTok 10
      = (Except.error (ErrUnauthorized.withMessage "Refresh token inválido ou já utilizado"),
         [demoRefreshTok])
    ∧ demoService.refreshTokens noFault [] (demoJWT.generateToken aliceUser 0) 10
      = (Except.error (ErrUnauthorized.withError "refresh token inválido"), [])
    ∧ demoService.refreshTokens noFault [] (demoJWT.generateRefreshToken "2" 0) 10
      = (Except.error ErrUserNotFound, [])
    ∧ demoService.refreshTokens noFault [] demoRefreshTok 10
      = (Except.ok (demoJWT.generateToken aliceUser 10, demoJWT.generateRefreshToken "1" 10),
         List.insert demoRefreshTok []) := by
  refine ⟨?_, ?_, ?_, ?_⟩
  · exact (refreshTokens_protocol_order demoService noFault [demoRefreshTok] demoRefreshTok 10).1
      (by simp) demoService noFault
  · exact (refreshTokens_protocol_order demoService noFault [] (demoJWT.generateToken aliceUser 0)
      10).2.1 (by simp) rfl
  · exact (refreshTokens_protocol_order demoService noFault [] (demoJWT.generateRefreshToken "2" 0)
      10).2.2.1 (by simp)
      { exp := some 86400, iat := none, nbf := none, sub := "2" } rfl rfl
  · exact (refreshTokens_protocol_order demoService noFault [] demoRefreshTok 10).2.2.2
      (by simp)
      { exp := some 86400, iat := none, nbf := none, sub := "1" } aliceUser rfl rfl

/-- C1: single-use refresh — a refresh token that is unconsumed, valid, and
whose subject resolves to a stored user is exchanged successfully, and after
that success every later call presenting the same token, on any blacklist
state reachable through production-path mutations (further rotations and
logouts, never the test-only ClearRefreshTokenBlacklist), fails with the
Unauthorized kind, because the success recorded the token in the consumed
set and the consumed check is performed first. -/
theorem refreshTokens_single_use
    (us : UserService) (senv : SignEnv) (bl : List Token) (R : Token) (now : Int)
    (claims : RegisteredClaims) (user : User)
    (hbl : R ∉ bl)
    (hval : us.jwt.validateRefreshToken R now = some claims)
    (huser : us.repo.getByID claims.sub = Except.ok (some user))
    (hs : senv = noFault) :
    (us.refreshTokens senv bl R now).1
      = Except.ok (us.jwt.generateToken user now, us.jwt.generateRefreshToken user.id now)
    ∧ ∀ bl', ReachableBl (us.refreshTokens senv bl R now).2 bl' →
        ∀ us' : UserService, ∀ senv' : SignEnv, ∀ now' : Int,
          us'.refreshTokens senv' bl' R now'
            = (Except.error (ErrUnauthorized.withMessage "Refresh token inválido ou já utilizado"),
               bl') := by
  subst hs
  have hrun : us.refreshTokens noFault bl R now
      = (Except.ok (us.jwt.generateToken user now, us.jwt.generateRefreshToken user.id now),
         List.insert R bl) := by
    simp only [UserService.refreshTokens, UserService.refreshRest, if_neg hbl, hval, huser,
               JWTService.generateTokenE, JWTService.generateRefreshTokenE, noFault]
  constructor
  · rw [hrun]
  · intro bl' hreach us' senv' now'
    have hmem : R ∈ bl' := by
      apply mem_of_reachableBl hreach
      rw [hrun]
      exact List.mem_insert_self R bl
    unfold UserService.refreshTokens
    rw [if_pos hmem]

/-- C1 witness: the concrete first exchange succeeds and the immediate
replay of the same token is rejected as already used. -/
theorem refreshTokens_single_use_witness :
    (demoService.refreshTokens noFault [] demoRefreshTok 10).1
      = Except.ok (demoJWT.generateToken aliceUser 10, demoJWT.generateRefreshToken "1" 10)
    ∧ demoService.refreshTokens noFault
        (demoService.refreshTokens noFault [] demoRefreshTok 10).2 demoRefreshTok 20
      = (Except.error (ErrUnauthorized.withMessage "Refresh token inválido ou já utilizado"),
         (demoService.refreshTokens noFault [] demoRefreshTok 10).2) := by
  have h := refreshTokens_single_use demoService noFault [] demoRefreshTok 10
    { exp := some 86400, iat := none, nbf := none, sub := "1" } aliceUser
    (by simp) rfl rfl rfl
  exact ⟨h.1, h.2 _ (ReachableBl.refl _) demoService noFault 20⟩

/-- C5 counterexample: with a store whose GetByID fails with a library error
and a valid unconsumed refresh token, RefreshTokens returns the UserNotFound
kind (HTTP 404), not the InternalServer kind (HTTP 500), because the code
coalesces the lookup error with absence. -/
theorem refreshTokens_storeError_userNotFound_cex :
    (errService.refreshTokens noFault [] demoRefreshTok 10).1 = Except.error ErrUserNotFound
    ∧ ErrUserNotFound.code = 404
    ∧ ErrInternalServer.code = 500 :=
  ⟨rfl, rfl, rfl⟩

/-- C5 amended: Create, GetByID, GetByEmail, Update, Delete and Authenticate
wrap a store library error into the InternalServer kind; RefreshTokens is
the exception — a library error of its user lookup is coalesced with
absence and returned as UserNotFound. -/
theorem internalError_propagation
    (us : UserService) (env : CryptoEnv) (senv : SignEnv) (now : Int) (e : String)
    (user : User) (id email pw : String) (bl : List Token) (T : Token)
    (claims : RegisteredClaims) :
    (us.repo.getByEmail user.email = Except.error e →
        us.create env user now = Except.error (ErrInternalServer.withError e))
    ∧ (us.repo.getByID id = Except.error e →
        us.getByID id = Except.error (ErrInternalServer.withError e))
    ∧ (us.repo.getByEmail email = Except.error e →
        us.getByEmail email = Except.error (ErrInternalServer.withError e))
    ∧ (us.repo.getByID user.id = Except.error e →
        us.update user now = Except.error (ErrInternalServer.withError e))
    ∧ (us.repo.getByID id = Except.error e →
        us.delete id = Except.error (ErrInternalServer.withError e))
    ∧ (us.repo.getByEmail email = Except.error e →
        us.authenticate env senv email pw now = Except.error (ErrInternalServer.withError e))
    ∧ (T ∉ bl → us.jwt.validateRefreshToken T now = some claims →
        us.repo.getByID claims.sub = Except.error e →
        (us.refreshTokens senv bl T now).1 = Except.error ErrUserNotFound) := by
  refine ⟨?_, ?_, ?_, ?_, ?_, ?_, ?_⟩
  · intro h
    simp only [UserService.create, h]
  · intro h
    simp only [UserService.getByID, h]
  · intro h
    simp only [UserService.getByEmail, h]
  · intro h
    simp only [UserService.update, h]
  · intro h
    simp only [UserService.delete, h]
  · intro h
    simp only [UserService.authenticate, h]
  · intro hm hv hr
    simp only [UserService.refreshTokens, UserService.refreshRest, if_neg hm, hv, hr]

/-- C5 amended witness: every operation over the failing store at concrete
inputs. -/
theorem internalError_propagation_witness :
    errService.create demoCrypto aliceUser 10
        = Except.error (ErrInternalServer.withError "db down")
    ∧ errService.getByID "1" = Except.error (ErrInternalServer.withError "db down")
    ∧ errService.getByEmail "alice@example.com"
        = Except.error (ErrInternalServer.withError "db down")
    ∧ errService.update aliceUser 10 = Except.error (ErrInternalServer.withError "db down")
    ∧ errService.delete "1" = Except.error (ErrInternalServer.withError "db down")
    ∧ errService.authenticate demoCrypto noFault "alice@example.com" "pw" 10
        = Except.error (ErrInternalServer.withError "db down")
    ∧ (errService.refreshTokens noFault [] demoRefreshTok 10).1
        = Except.error ErrUserNotFound := by
  have h := internalError_propagation errService demoCrypto noFault 10 "db down" aliceUser
    "1" "alice@example.com" "pw" [] demoRefreshTok
    { exp := some 86400, iat := none, nbf := none, sub := "1" }
  exact ⟨h.1 rfl, h.2.1 rfl, h.2.2.1 rfl, h.2.2.2.1 rfl, h.2.2.2.2.1 rfl,
    h.2.2.2.2.2.1 rfl, h.2.2.2.2.2.2 (by simp) rfl rfl⟩

/-- C6: Gate A header parsing — an empty Authorization header rejects with
the Unauthorized/MissingToken kind (HTTP 401), independent of the JWT
service and decoder; a non-empty header that does not split on spaces into
exactly two parts with the first part literally Bearer — in particular the
header consisting of exactly Bearer alone — rejects with BadRequest
(HTTP 400), not Unauthorized, again independent of the JWT service and
decoder, so no token validation is attempted in either case. -/
theorem ginAuthenticate_header_parsing
    (s : JWTService) (decode : String → Option Token) (now : Int) (header : String) :
    (header = "" → ∀ s' : JWTService, ∀ decode' : String → Option Token,
        ginAuthenticate s' decode' header now = GateResult.reject ErrMissingToken)
    ∧ (header ≠ "" → (∀ t, splitOnSpace header ≠ ["Bearer", t]) →
        ∀ s' : JWTService, ∀ decode' : String → Option Token,
          ginAuthenticate s' decode' header now
            = GateResult.reject (ErrBadRequest.withMessage "Formato de autorização inválido"))
    ∧ ginAuthenticate s decode "Bearer" now
        = GateResult.reject (ErrBadRequest.withMessage "Formato de autorização inválido")
    ∧ ErrMissingToken.code = 401
    ∧ (ErrBadRequest.withMessage "Formato de autorização inválido").code = 400 := by
  refine ⟨?_, ?_, rfl, rfl, rfl⟩
  · intro h s' decode'
    simp [ginAuthenticate, h]
  · intro hne hsplit s' decode'
    unfold ginAuthenticate
    rw [if_neg hne]
    generalize hs : splitOnSpace header = l
    cases l with
    | nil => rfl
    | cons p0 rest =>
      cases rest with
      | nil => rfl
      | cons p1 rest2 =>
        cases rest2 with
        | nil =>
          have hb : p0 ≠ "Bearer" := fun h0 => hsplit p1 (by rw [hs, h0])
          simp [hb]
        | cons p2 rest3 => rfl

/-- C6 witness: the empty header, a three-part header, and the bare Bearer
header at concrete inputs. -/
theorem ginAuthenticate_header_parsing_witness :
    ginAuthenticate demoJWT (fun _ => none) "" 0 = GateResult.reject ErrMissingToken
    ∧ ginAuthenticate demoJWT (fun _ => none) "Token abc def" 0
        = GateResult.reject (ErrBadRequest.withMessage "Formato de autorização inválido")
    ∧ ginAuthenticate demoJWT (fun _ => none) "Bearer" 0
        = GateResult.reject (ErrBadRequest.withMessage "Formato de autorização inválido") := by
  have h := ginAuthenticate_header_parsing demoJWT (fun _ => none) 0 ""
  have h2 := ginAuthenticate_header_parsing demoJWT (fun _ => none) 0 "Token abc def"
  refine ⟨h.1 rfl demoJWT (fun _ => none), ?_, h2.2.2.1⟩
  refine h2.2.1 (by decide) ?_ demoJWT (fun _ => none)
  intro t hsp
  have hlen := congrArg List.length hsp
  rw [show (splitOnSpace "Token abc def").length = 3 from rfl] at hlen
  simp at hlen

/-- C7: role gate — a request whose scope carries no authenticated user id,
or no roles, or whose roles do not contain the required role as an exact
string member, is rejected with Forbidden and the downstream handler is not
invoked; when the role is a member the request continues; in particular
roles consisting of user alone fail RequireRole admin while roles
consisting of admin pass. -/
theorem ginRequireRole_gate (role : String) (ctx : AuthContext) :
    ((ctx.userID = none ∨ ctx.roles = none ∨ (∃ rs, ctx.roles = some rs ∧ role ∉ rs)) →
        ginRequireRole role ctx
          = GateResult.reject (ErrForbidden.withMessage "Acesso negado: permissão insuficiente"))
    ∧ (∀ uid rs, ctx.userID = some uid → ctx.roles = some rs → role ∈ rs →
        ginRequireRole role ctx = GateResult.proceed ())
    ∧ ginRequireRole "admin"
        { userID := some "1", userEmail := some "a@b.com", roles := some ["user"] }
        = GateResult.reject (ErrForbidden.withMessage "Acesso negado: permissão insuficiente")
    ∧ ginRequireRole "admin"
        { userID := some "1", userEmail := some "a@b.com", roles := some ["admin"] }
        = GateResult.proceed () := by
  refine ⟨?_, ?_, by decide, by decide⟩
  · intro h
    unfold ginRequireRole
    rcases h with h | h | ⟨rs, hrs, hmem⟩
    · simp [h]
    · simp [h]
    · have hc : containsRole rs role = false := by
        cases hcc : containsRole rs role
        · rfl
        · exact absurd ((containsRole_eq_true_iff rs role).mp hcc) hmem
      simp [hrs, hc]
  · intro uid rs huid hrs hmem
    have hc : containsRole rs role = true := (containsRole_eq_true_iff rs role).mpr hmem
    unfold ginRequireRole
    simp [huid, hrs, hc]

/-- C7 witness: an unauthenticated context is rejected and a context with
the admin role proceeds, at concrete inputs. -/
theorem ginRequireRole_gate_witness :
    ginRequireRole "admin" { userID := none, userEmail := none, roles := none }
      = GateResult.reject (ErrForbidden.withMessage "Acesso negado: permissão insuficiente")
    ∧ ginRequireRole "admin" { userID := some "1", userEmail := some "e", roles := some ["admin"] }
      = GateResult.proceed () := by
  have h := ginRequireRole_gate "admin"
    { userID := none, userEmail := none, roles := none }
  have h2 := ginRequireRole_gate "admin"
    { userID := some "1", userEmail := some "e", roles := some ["admin"] }
  exact ⟨h.1 (Or.inl rfl), h2.2.1 "1" ["admin"] rfl rfl (by simp)⟩

/-- C8 amended: the consumed-token map is accessed with no mutual-exclusion
guard, so the check-then-act sequence of RefreshTokens is not atomic: in the
interleaving where both calls run the blacklist membership check against the
initial state before either performs its write, two RefreshTokens calls
presenting the same not-yet-consumed valid refresh token both succeed,
double-issuing token pairs from one refresh token. -/
theorem refresh_race_unguarded
    (us : UserService) (bl : List Token) (R : Token) (now1 now2 : Int)
    (claims1 claims2 : RegisteredClaims) (user1 user2 : User)
    (hbl : R ∉ bl)
    (hv1 : us.jwt.validateRefreshToken R now1 = some claims1)
    (hu1 : us.repo.getByID claims1.sub = Except.ok (some user1))
    (hv2 : us.jwt.validateRefreshToken R now2 = some claims2)
    (hu2 : us.repo.getByID claims2.sub = Except.ok (some user2)) :
    R ∉ bl
    ∧ (us.refreshRest noFault R now1 bl).1
        = Except.ok (us.jwt.generateToken user1 now1, us.jwt.generateRefreshToken user1.id now1)
    ∧ (us.refreshRest noFault R now1 bl).2 = List.insert R bl
    ∧ (us.refreshRest noFault R now2 (List.insert R bl)).1
        = Except.ok (us.jwt.generateToken user2 now2, us.jwt.generateRefreshToken user2.id now2) := by
  have h1 : us.refreshRest noFault R now1 bl
      = (Except.ok (us.jwt.generateToken user1 now1, us.jwt.generateRefreshToken user1.id now1),
         List.insert R bl) := by
    simp only [UserService.refreshRest, hv1, hu1, JWTService.generateTokenE,
               JWTService.generateRefreshTokenE, noFault]
  have h2 : us.refreshRest noFault R now2 (List.insert R bl)
      = (Except.ok (us.jwt.generateToken user2 now2, us.jwt.generateRefreshToken user2.id now2),
         List.insert R (List.insert R bl)) := by
    simp only [UserService.refreshRest, hv2, hu2, JWTService.generateTokenE,
               JWTService.generateRefreshTokenE, noFault]
  refine ⟨hbl, ?_, ?_, ?_⟩
  · rw [h1]
  · rw [h1]
  · rw [h2]

/-- C8 counterexample: an explicit unsynchronized interleaving — both bodies
run after both membership checks passed on the empty blacklist — in which
two RefreshTokens calls presenting the same unconsumed valid refresh token
both succeed. -/
theorem refresh_race_double_success_cex :
    demoRefreshTok ∉ ([] : List Token)
    ∧ exceptIsOk (demoService.refreshRest noFault demoRefreshTok 10 []).1 = true
    ∧ exceptIsOk (demoService.refreshRest noFault demoRefreshTok 20
        ((demoService.refreshRest noFault demoRefreshTok 10 []).2)).1 = true :=
  ⟨by simp, rfl, rfl⟩

/-- C8 amended witness: the general race theorem at the concrete service,
token and times. -/
theorem refresh_race_unguarded_witness :
    demoRefreshTok ∉ ([] : List Token)
    ∧ (demoService.refreshRest noFault demoRefreshTok 10 []).1
        = Except.ok (demoJWT.generateToken aliceUser 10, demoJWT.generateRefreshToken "1" 10)
    ∧ (demoService.refreshRest noFault demoRefreshTok 10 []).2 = List.insert demoRefreshTok []
    ∧ (demoService.refreshRest noFault demoRefreshTok 20 (List.insert demoRefreshTok [])).1
        = Except.ok (demoJWT.generateToken aliceUser 20, demoJWT.generateRefreshToken "1" 20) :=
  refresh_race_unguarded demoService [] demoRefreshTok 10 20
    { exp := some 86400, iat := none, nbf := none, sub := "1" }
    { exp := some 86400, iat := none, nbf := none, sub := "1" }
    aliceUser aliceUser (by simp) rfl rfl rfl rfl

end GoAuth
